import Mathlib

/-!
# Verification of the DataTobiz brand-monitoring Streamlit layer

Shallow embedding of the visible logic of `streamlit_app.py`:

* the secrets gate `check_streamlit_secrets`,
* the secrets-to-configuration compiler `create_config_from_secrets`
  (including the credentials JSON handling, where the Python standard
  library call `json.loads` is external code modelled by an explicit
  parse oracle `loads : String → Option PyJson`),
* the transient-file lifecycle of `create_api` / `initialize_api_async`,
* the two connection-test / health-check flattening handlers in `main`,
* the monitoring-button handler in `main`.

UI side effects (`st.warning`, `st.info`, `st.success`, `st.error`,
`st.markdown`) are modelled as an ordered list of emitted `Msg` values.
-/

/-- Python truthiness of a string: non-empty strings are truthy. -/
def pyTruthy (s : String) : Bool := s != ""

/-- A deployment secret store: a finite map from secret names to string
values (`st.secrets`).  Embedded as an association list; lookup of an
absent key is `none`. -/
def SecretSet : Type := List (String × String)

/-- Lookup `st.secrets.get(k, "")`: the value stored under `k`,
defaulting to the empty string when the key is absent. -/
def getSecret (s : SecretSet) (k : String) : String :=
  match List.lookup k s with
  | some v => v
  | none => ""

/-- The five required secret names, in the order listed in
`check_streamlit_secrets`. -/
def requiredSecrets : List String :=
  ["OPENAI_API_KEY", "PERPLEXITY_API_KEY", "GEMINI_API_KEY",
   "GOOGLE_SHEETS_SPREADSHEET_ID", "GOOGLE_SERVICE_ACCOUNT_CREDENTIALS"]

/-- Test `secret in st.secrets and st.secrets[secret]`: the key is
present and its value is truthy (non-empty). -/
def secretConfigured (s : SecretSet) (k : String) : Bool :=
  match List.lookup k s with
  | some v => pyTruthy v
  | none => false

/-- Result dictionary of `check_streamlit_secrets`. -/
structure SecretsStatus where
  all_configured : Bool
  missing_secrets : List String
  configured_secrets : List String
deriving DecidableEq

/-- Embedding of `check_streamlit_secrets` (streamlit_app.py lines
135-158): iterate the five required names, appending each to the
configured or the missing list, and report `all_configured` iff the
missing list is empty. -/
def check_streamlit_secrets (s : SecretSet) : SecretsStatus :=
  let r := requiredSecrets.foldl
    (fun acc secret =>
      if secretConfigured s secret then (acc.1 ++ [secret], acc.2)
      else (acc.1, acc.2 ++ [secret]))
    ([], [])
  { all_configured := r.2.length == 0
    missing_secrets := r.2
    configured_secrets := r.1 }

/-! ## Python values and the credentials JSON block -/

/-- A parsed Python JSON value (the result of `json.loads`).  Numbers
are embedded as integers; no claim depends on non-integer numerics. -/
inductive PyJson where
  | null
  | bool (b : Bool)
  | num (n : Int)
  | str (s : String)
  | arr (elems : List PyJson)
  | obj (entries : List (String × PyJson))

/-- Python runtime errors the credentials block can raise besides
`json.JSONDecodeError` (which the block catches). -/
inductive PyError where
  | typeError
  | keyError
deriving DecidableEq

/-- Boolean prefix test on character lists. -/
def charsPrefixOf : List Char → List Char → Bool
  | [], _ => true
  | _ :: _, [] => false
  | a :: as, b :: bs => a == b && charsPrefixOf as bs

/-- Boolean substring test on character lists. -/
def charsInfixOf (needle : List Char) : List Char → Bool
  | [] => charsPrefixOf needle []
  | b :: bs => charsPrefixOf needle (b :: bs) || charsInfixOf needle bs

/-- Python `s.startswith(pre)`: code-point prefix test. -/
def pyStartswith (s pre : String) : Bool := charsPrefixOf pre.data s.data

/-- Python membership test `needle in v` for a string needle: key test
for dicts, element equality for lists, substring test for strings, and
a `TypeError` for every non-container value. -/
def pyContainsStr (needle : String) : PyJson → Except PyError Bool
  | .obj entries => .ok (entries.any (fun kv => kv.1 == needle))
  | .arr elems =>
      .ok (elems.any (fun e =>
        match e with
        | .str t => t == needle
        | _ => false))
  | .str t => .ok (charsInfixOf needle.data t.data)
  | .null | .bool _ | .num _ => .error .typeError

/-- Python subscript `v[key]` for a string key: dict lookup; every other
value raises a `TypeError` (list and string subscripts need integers). -/
def pySubscriptStr (key : String) : PyJson → Except PyError PyJson
  | .obj entries =>
      match List.lookup key entries with
      | some v => .ok v
      | none => .error .keyError
  | _ => .error .typeError

/-- Python `str()` of a JSON value as interpolated into a message.
Container values are abbreviated: no claim interpolates a container. -/
def pyToStr : PyJson → String
  | .null => "None"
  | .bool true => "True"
  | .bool false => "False"
  | .num n => toString n
  | .str t => t
  | .arr _ => "<list>"
  | .obj _ => "<dict>"

/-- A UI message emitted through the `st` API. -/
inductive Msg where
  | warning (text : String)
  | info (text : String)
  | success (text : String)
  | error (text : String)
  | markdown (text : String)
deriving DecidableEq

def openaiFormatWarning : String :=
  "⚠️ OpenAI API key format may be incorrect (should start with \x27sk-\x27)"

def perplexityFormatWarning : String :=
  "⚠️ Perplexity API key format may be incorrect (should start with \x27pplx-\x27)"

def perplexityLengthWarning : String :=
  "⚠️ Perplexity API key appears to be too short"

def spreadsheetMissingWarning : String :=
  "⚠️ Google Sheets Spreadsheet ID is missing"

def spreadsheetHintInfo : String :=
  "💡 The spreadsheet ID is the long string in your Google Sheets URL (e.g., 1u6xIltHLEO-cfrFwCNVFL2726nRwaAMD90aqAbZKjgQ)"

def credentialsMissingWarning : String :=
  "⚠️ Google Service Account credentials are missing"

def credentialsInvalidWarning : String :=
  "⚠️ Google Service Account credentials appear to be invalid (missing client_email)"

def credentialsNotJsonWarning : String :=
  "⚠️ Google Service Account credentials are not valid JSON"

/-- Lines 205-206: warn when the OpenAI key does not start with `sk-`;
the empty string also fails `startswith` and triggers the warning. -/
def openaiKeyMsgs (openai_key : String) : List Msg :=
  if ! pyStartswith openai_key "sk-" then [.warning openaiFormatWarning] else []

/-- Lines 208-209: warn when the Perplexity key does not start with
`pplx-`. -/
def perplexityPrefixMsgs (perplexity_key : String) : List Msg :=
  if ! pyStartswith perplexity_key "pplx-" then [.warning perplexityFormatWarning]
  else []

/-- Lines 211-213: `if perplexity_key and len(perplexity_key) < 20` —
the length warning requires a truthy (non-empty) key. -/
def perplexityLengthMsgs (perplexity_key : String) : List Msg :=
  if pyTruthy perplexity_key && decide (perplexity_key.length < 20) then
    [.warning perplexityLengthWarning]
  else []

/-- Lines 216-220: spreadsheet id check. -/
def spreadsheetMsgs (spreadsheet_id : String) : List Msg :=
  if ! pyTruthy spreadsheet_id then
    [.warning spreadsheetMissingWarning, .info spreadsheetHintInfo]
  else
    [.success ("✅ Google Sheets Spreadsheet ID: " ++ spreadsheet_id)]

/-- Lines 222-233: the credentials block.  `loads` is the parse oracle
for the external `json.loads` (`none` models `json.JSONDecodeError`,
which is the only exception the block catches).  The second component
is `true` when the block raises an uncaught `TypeError`, which happens
exactly when the membership test or the subscript hits a non-dict
value. -/
def credentialsMsgs (loads : String → Option PyJson) (credentials_json : String) :
    List Msg × Bool :=
  if ! pyTruthy credentials_json then ([.warning credentialsMissingWarning], false)
  else
    match loads credentials_json with
    | none => ([.warning credentialsNotJsonWarning], false)
    | some creds_data =>
      match pyContainsStr "client_email" creds_data with
      | .error _ => ([], true)
      | .ok false => ([.warning credentialsInvalidWarning], false)
      | .ok true =>
        match pySubscriptStr "client_email" creds_data with
        | .error _ => ([], true)
        | .ok v =>
          ([.success ("✅ Google Service Account configured for: " ++ pyToStr v)],
           false)

/-- Whether the credentials block raises an uncaught TypeError on this
parse result: the membership test raises on JSON null, booleans and
numbers; on arrays and strings the membership test succeeds and only
the subsequent subscript raises, which happens exactly when the array
contains the element "client_email" or the string contains that
substring; objects and unparseable input never raise. -/
def credsRaise : Option PyJson → Bool
  | none => false
  | some (.obj _) => false
  | some (.arr elems) =>
      elems.any (fun e =>
        match e with
        | .str t => t == "client_email"
        | _ => false)
  | some (.str t) => charsInfixOf "client_email".data t.data
  | some .null => true
  | some (.bool _) => true
  | some (.num _) => true

/-! ## The rendered configuration template (lines 235-336)

The f-string template is split at its four interpolation points. -/

def configSeg0 : String :=
  "# Enhanced DataTobiz Brand Monitoring Configuration (Stage 2)\n" ++
  "# Generated from Streamlit secrets\n" ++
  "\n" ++
  "# LLM Configurations\n" ++
  "llm_configs:\n" ++
  "  " ++ "openai" ++ ":\n" ++
  "    name: \"" ++ "openai" ++ "\"\n" ++
  "    api_key: \""

def configSeg1 : String :=
  "\"\n" ++
  "    model: \"" ++ "gpt-3.5-turbo" ++ "\"\n" ++
  "    max_tokens: " ++ "1000" ++ "\n" ++
  "    temperature: " ++ "0.1" ++ "\n" ++
  "    timeout: " ++ "30" ++ "\n" ++
  "\n" ++
  "  " ++ "perplexity" ++ ":\n" ++
  "    name: \"" ++ "perplexity" ++ "\"\n" ++
  "    api_key: \""

def configSeg2 : String :=
  "\"\n" ++
  "    model: \"" ++ "sonar" ++ "\"\n" ++
  "    max_tokens: " ++ "1000" ++ "\n" ++
  "    temperature: " ++ "0.1" ++ "\n" ++
  "    timeout: " ++ "30" ++ "\n" ++
  "\n" ++
  "  " ++ "gemini" ++ ":\n" ++
  "    name: \"" ++ "gemini" ++ "\"\n" ++
  "    api_key: \""

def configSeg3 : String :=
  "\"\n" ++
  "    model: \"" ++ "gemini-pro" ++ "\"\n" ++
  "    max_tokens: " ++ "1000" ++ "\n" ++
  "    temperature: " ++ "0.1" ++ "\n" ++
  "    timeout: " ++ "30" ++ "\n" ++
  "\n" ++
  "# Google Sheets Configuration\n" ++
  "google_sheets:\n" ++
  "  spreadsheet_id: \""

def configSeg4 : String :=
  "\"\n" ++
  "  worksheet_name: \"" ++ "Brand_Monitoring_New" ++ "\"\n" ++
  "  credentials_file: \"" ++ "credentials.json" ++ "\"\n" ++
  "  auto_setup_headers: " ++ "true" ++ "\n" ++
  "  batch_size: " ++ "100" ++ "\n" ++
  "  enable_validation: " ++ "true" ++ "\n" ++
  "\n" ++
  "# Brand Configuration\n" ++
  "brand:\n" ++
  "  target_brand: \"" ++ "DataTobiz" ++ "\"\n" ++
  "  brand_variations:\n" ++
  "    " ++ "- \"" ++ "DataTobiz" ++ "\"\n" ++
  "    " ++ "- \"" ++ "Data Tobiz" ++ "\"\n" ++
  "    " ++ "- \"" ++ "data tobiz" ++ "\"\n" ++
  "    " ++ "- \"" ++ "DATATOBIZ" ++ "\"\n" ++
  "    " ++ "- \"" ++ "DataToBiz" ++ "\"\n" ++
  "    " ++ "- \"" ++ "Data-Tobiz" ++ "\"\n" ++
  "    " ++ "- \"" ++ "datatobiz.com" ++ "\"\n" ++
  "  case_sensitive: " ++ "false" ++ "\n" ++
  "  partial_match: " ++ "true" ++ "\n" ++
  "\n" ++
  "# Workflow Configuration\n" ++
  "workflow:\n" ++
  "  max_retries: " ++ "3" ++ "\n" ++
  "  retry_delay: " ++ "1.0" ++ "\n" ++
  "  parallel_execution: " ++ "true" ++ "\n" ++
  "  timeout_per_agent: " ++ "60" ++ "\n" ++
  "  log_level: \"" ++ "INFO" ++ "\"\n" ++
  "\n" ++
  "# Stage 2 Configuration\n" ++
  "stage2:\n" ++
  "  enable_ranking_detection: " ++ "true" ++ "\n" ++
  "  enable_cost_tracking: " ++ "true" ++ "\n" ++
  "  enable_analytics: " ++ "true" ++ "\n" ++
  "  \n" ++
  "  ranking_detection:\n" ++
  "    max_position: " ++ "20" ++ "\n" ++
  "    min_confidence: " ++ "0.6" ++ "\n" ++
  "    enable_ordinal_detection: " ++ "true" ++ "\n" ++
  "    enable_list_detection: " ++ "true" ++ "\n" ++
  "    enable_keyword_detection: " ++ "true" ++ "\n" ++
  "    enable_numeric_detection: " ++ "true" ++ "\n" ++
  "\n" ++
  "# Enhanced Brand Configuration\n" ++
  "enhanced_brand:\n" ++
  "  context_analysis:\n" ++
  "    context_window: " ++ "200" ++ "\n" ++
  "    enable_sentiment_analysis: " ++ "false" ++ "\n" ++
  "    positive_keywords:\n" ++
  "      " ++ "- \"" ++ "excellent" ++ "\"\n" ++
  "      " ++ "- \"" ++ "outstanding" ++ "\"\n" ++
  "      " ++ "- \"" ++ "innovative" ++ "\"\n" ++
  "      " ++ "- \"" ++ "reliable" ++ "\"\n" ++
  "      " ++ "- \"" ++ "powerful" ++ "\"\n" ++
  "      " ++ "- \"" ++ "comprehensive" ++ "\"\n" ++
  "      " ++ "- \"" ++ "award-winning" ++ "\"\n" ++
  "      " ++ "- \"" ++ "recognized" ++ "\"\n" ++
  "      " ++ "- \"" ++ "trusted" ++ "\"\n" ++
  "      " ++ "- \"" ++ "proven" ++ "\"\n" ++
  "    negative_keywords:\n" ++
  "      " ++ "- \"" ++ "poor" ++ "\"\n" ++
  "      " ++ "- \"" ++ "bad" ++ "\"\n" ++
  "      " ++ "- \"" ++ "disappointing" ++ "\"\n" ++
  "      " ++ "- \"" ++ "limited" ++ "\"\n" ++
  "      " ++ "- \"" ++ "lacking" ++ "\"\n" ++
  "      " ++ "- \"" ++ "outdated" ++ "\"\n" ++
  "      " ++ "- \"" ++ "problematic" ++ "\"\n" ++
  "      " ++ "- \"" ++ "difficult" ++ "\"\n" ++
  "      " ++ "- \"" ++ "complex" ++ "\"\n" ++
  "      " ++ "- \"" ++ "unreliable" ++ "\"\n"

/-- The rendered configuration text of lines 235-336: the fixed template
with the four secret values interpolated. -/
def config_content (openai_key perplexity_key gemini_key spreadsheet_id : String) :
    String :=
  configSeg0 ++ openai_key ++ configSeg1 ++ perplexity_key ++ configSeg2 ++
    gemini_key ++ configSeg3 ++ spreadsheet_id ++ configSeg4

/-- Embedding of `create_config_from_secrets` (lines 194-337): reads the
five secrets with default `""`, emits the soft-validation messages in
source order, and returns the rendered template; the second component is
`none` when the credentials block raises an uncaught `TypeError` (the
function then terminates without producing the template). -/
def create_config_from_secrets (loads : String → Option PyJson) (s : SecretSet) :
    List Msg × Option String :=
  let openai_key := getSecret s "OPENAI_API_KEY"
  let perplexity_key := getSecret s "PERPLEXITY_API_KEY"
  let gemini_key := getSecret s "GEMINI_API_KEY"
  let spreadsheet_id := getSecret s "GOOGLE_SHEETS_SPREADSHEET_ID"
  let credentials_json := getSecret s "GOOGLE_SERVICE_ACCOUNT_CREDENTIALS"
  let cred := credentialsMsgs loads credentials_json
  (openaiKeyMsgs openai_key ++ perplexityPrefixMsgs perplexity_key ++
     perplexityLengthMsgs perplexity_key ++ spreadsheetMsgs spreadsheet_id ++
     cred.1,
   if cred.2 then none
   else some (config_content openai_key perplexity_key gemini_key spreadsheet_id))

/-! ## Structured view of the rendered configuration

The claims about the compiled configuration speak of providers, storage,
brand, workflow, ranking and sentiment sections.  The following
structures state that view (following the words of the spec), and
`renderConfig` maps it back to configuration text; the refinement
theorem below proves the source template is exactly the rendering of
that structured view.  Fractional constants (`0.1`, `1.0`, `0.6`) are
carried as their rendered decimal literals. -/

structure LLMConfig where
  name : String
  api_key : String
  model : String
  max_tokens : Nat
  temperature : String
  timeout : Nat
deriving DecidableEq

structure SheetsConfig where
  spreadsheet_id : String
  worksheet_name : String
  credentials_file : String
  auto_setup_headers : Bool
  batch_size : Nat
  enable_validation : Bool
deriving DecidableEq

structure BrandConfig where
  target_brand : String
  brand_variations : List String
  case_sensitive : Bool
  partial_match : Bool
deriving DecidableEq

structure WorkflowConfig where
  max_retries : Nat
  retry_delay : String
  parallel_execution : Bool
  timeout_per_agent : Nat
  log_level : String
deriving DecidableEq

structure RankingConfig where
  max_position : Nat
  min_confidence : String
  enable_ordinal_detection : Bool
  enable_list_detection : Bool
  enable_keyword_detection : Bool
  enable_numeric_detection : Bool
deriving DecidableEq

structure Stage2Config where
  enable_ranking_detection : Bool
  enable_cost_tracking : Bool
  enable_analytics : Bool
  ranking_detection : RankingConfig
deriving DecidableEq

structure ContextAnalysisConfig where
  context_window : Nat
  enable_sentiment_analysis : Bool
  positive_keywords : List String
  negative_keywords : List String
deriving DecidableEq

structure RuntimeConfig where
  llm_configs : List LLMConfig
  google_sheets : SheetsConfig
  brand : BrandConfig
  workflow : WorkflowConfig
  stage2 : Stage2Config
  enhanced_brand : ContextAnalysisConfig
deriving DecidableEq

/-- The structured configuration the compiler produces from the four
interpolated secret values; every other field is fixed. -/
def runtime_config_of (openai_key perplexity_key gemini_key spreadsheet_id : String) :
    RuntimeConfig where
  llm_configs :=
    [{ name := "openai", api_key := openai_key, model := "gpt-3.5-turbo",
       max_tokens := 1000, temperature := "0.1", timeout := 30 },
     { name := "perplexity", api_key := perplexity_key, model := "sonar",
       max_tokens := 1000, temperature := "0.1", timeout := 30 },
     { name := "gemini", api_key := gemini_key, model := "gemini-pro",
       max_tokens := 1000, temperature := "0.1", timeout := 30 }]
  google_sheets :=
    { spreadsheet_id := spreadsheet_id, worksheet_name := "Brand_Monitoring_New",
      credentials_file := "credentials.json", auto_setup_headers := true,
      batch_size := 100, enable_validation := true }
  brand :=
    { target_brand := "DataTobiz",
      brand_variations :=
        ["DataTobiz", "Data Tobiz", "data tobiz", "DATATOBIZ", "DataToBiz",
         "Data-Tobiz", "datatobiz.com"],
      case_sensitive := false, partial_match := true }
  workflow :=
    { max_retries := 3, retry_delay := "1.0", parallel_execution := true,
      timeout_per_agent := 60, log_level := "INFO" }
  stage2 :=
    { enable_ranking_detection := true, enable_cost_tracking := true,
      enable_analytics := true,
      ranking_detection :=
        { max_position := 20, min_confidence := "0.6",
          enable_ordinal_detection := true, enable_list_detection := true,
          enable_keyword_detection := true, enable_numeric_detection := true } }
  enhanced_brand :=
    { context_window := 200, enable_sentiment_analysis := false,
      positive_keywords :=
        ["excellent", "outstanding", "innovative", "reliable", "powerful",
         "comprehensive", "award-winning", "recognized", "trusted", "proven"],
      negative_keywords :=
        ["poor", "bad", "disappointing", "limited", "lacking", "outdated",
         "problematic", "difficult", "complex", "unreliable"] }

def renderBool (b : Bool) : String := if b then "true" else "false"

/-- YAML block of one provider, written in continuation style. -/
def renderProvider (c : LLMConfig) (rest : String) : String :=
  "  " ++ c.name ++ ":\n" ++
  "    name: \"" ++ c.name ++ "\"\n" ++
  "    api_key: \"" ++ c.api_key ++ "\"\n" ++
  "    model: \"" ++ c.model ++ "\"\n" ++
  "    max_tokens: " ++ toString c.max_tokens ++ "\n" ++
  "    temperature: " ++ c.temperature ++ "\n" ++
  "    timeout: " ++ toString c.timeout ++ "\n" ++
  "\n" ++ rest

def renderProviders (cs : List LLMConfig) (rest : String) : String :=
  match cs with
  | [] => rest
  | c :: cs => renderProvider c (renderProviders cs rest)

/-- YAML list items, one quoted string per line. -/
def renderQuotedItems (indent : String) (xs : List String) (rest : String) : String :=
  match xs with
  | [] => rest
  | x :: xs => indent ++ "- \"" ++ x ++ "\"\n" ++ renderQuotedItems indent xs rest

/-- Configuration text of a structured `RuntimeConfig`. -/
def renderConfig (c : RuntimeConfig) : String :=
  "# Enhanced DataTobiz Brand Monitoring Configuration (Stage 2)\n" ++
  "# Generated from Streamlit secrets\n" ++
  "\n" ++
  "# LLM Configurations\n" ++
  "llm_configs:\n" ++
  renderProviders c.llm_configs (
    "# Google Sheets Configuration\n" ++
    "google_sheets:\n" ++
    "  spreadsheet_id: \"" ++ c.google_sheets.spreadsheet_id ++ "\"\n" ++
    "  worksheet_name: \"" ++ c.google_sheets.worksheet_name ++ "\"\n" ++
    "  credentials_file: \"" ++ c.google_sheets.credentials_file ++ "\"\n" ++
    "  auto_setup_headers: " ++ renderBool c.google_sheets.auto_setup_headers ++ "\n" ++
    "  batch_size: " ++ toString c.google_sheets.batch_size ++ "\n" ++
    "  enable_validation: " ++ renderBool c.google_sheets.enable_validation ++ "\n" ++
    "\n" ++
    "# Brand Configuration\n" ++
    "brand:\n" ++
    "  target_brand: \"" ++ c.brand.target_brand ++ "\"\n" ++
    "  brand_variations:\n" ++
    renderQuotedItems "    " c.brand.brand_variations (
      "  case_sensitive: " ++ renderBool c.brand.case_sensitive ++ "\n" ++
      "  partial_match: " ++ renderBool c.brand.partial_match ++ "\n" ++
      "\n" ++
      "# Workflow Configuration\n" ++
      "workflow:\n" ++
      "  max_retries: " ++ toString c.workflow.max_retries ++ "\n" ++
      "  retry_delay: " ++ c.workflow.retry_delay ++ "\n" ++
      "  parallel_execution: " ++ renderBool c.workflow.parallel_execution ++ "\n" ++
      "  timeout_per_agent: " ++ toString c.workflow.timeout_per_agent ++ "\n" ++
      "  log_level: \"" ++ c.workflow.log_level ++ "\"\n" ++
      "\n" ++
      "# Stage 2 Configuration\n" ++
      "stage2:\n" ++
      "  enable_ranking_detection: " ++ renderBool c.stage2.enable_ranking_detection ++ "\n" ++
      "  enable_cost_tracking: " ++ renderBool c.stage2.enable_cost_tracking ++ "\n" ++
      "  enable_analytics: " ++ renderBool c.stage2.enable_analytics ++ "\n" ++
      "  \n" ++
      "  ranking_detection:\n" ++
      "    max_position: " ++ toString c.stage2.ranking_detection.max_position ++ "\n" ++
      "    min_confidence: " ++ c.stage2.ranking_detection.min_confidence ++ "\n" ++
      "    enable_ordinal_detection: " ++
        renderBool c.stage2.ranking_detection.enable_ordinal_detection ++ "\n" ++
      "    enable_list_detection: " ++
        renderBool c.stage2.ranking_detection.enable_list_detection ++ "\n" ++
      "    enable_keyword_detection: " ++
        renderBool c.stage2.ranking_detection.enable_keyword_detection ++ "\n" ++
      "    enable_numeric_detection: " ++
        renderBool c.stage2.ranking_detection.enable_numeric_detection ++ "\n" ++
      "\n" ++
      "# Enhanced Brand Configuration\n" ++
      "enhanced_brand:\n" ++
      "  context_analysis:\n" ++
      "    context_window: " ++ toString c.enhanced_brand.context_window ++ "\n" ++
      "    enable_sentiment_analysis: " ++
        renderBool c.enhanced_brand.enable_sentiment_analysis ++ "\n" ++
      "    positive_keywords:\n" ++
      renderQuotedItems "      " c.enhanced_brand.positive_keywords (
        "    negative_keywords:\n" ++
        renderQuotedItems "      " c.enhanced_brand.negative_keywords "")))

/-! ## The connection-test status payload and its two flattening handlers

The payload is produced by the external `api.test_connections()` (not
part of this file is the producer; its shape is the one the spec
documents: `{success, error?, agents, storage, analytics,
stage2_features}`).  Optional fields are `Option`; mappings are
association lists in insertion order. -/

structure AgentInfo where
  healthy : Option Bool
  model : Option String
  error : Option String
deriving DecidableEq

structure SheetsInfo where
  available : Option Bool
  records_found : Option String
  error : Option String
deriving DecidableEq

structure EngineInfo where
  available : Option Bool
  reason : Option String
deriving DecidableEq

structure StoragePart where
  google_sheets : Option SheetsInfo
deriving DecidableEq

structure AnalyticsPart where
  engine : Option EngineInfo
deriving DecidableEq

structure StatusPayload where
  success : Option Bool
  error : Option String
  agents : Option (List (String × AgentInfo))
  storage : Option StoragePart
  analytics : Option AnalyticsPart
  stage2_features : Option (List (String × Bool))
deriving DecidableEq

def emptySheets : SheetsInfo := { available := none, records_found := none, error := none }

def emptyEngine : EngineInfo := { available := none, reason := none }

/-- Lookup `status.get('storage', {}).get('google_sheets', {})`. -/
def storageInfoOf (status : StatusPayload) : SheetsInfo :=
  ((status.storage.getD { google_sheets := none }).google_sheets).getD emptySheets

/-- Lookup `status.get('analytics', {}).get('engine', {})`. -/
def analyticsInfoOf (status : StatusPayload) : EngineInfo :=
  ((status.analytics.getD { engine := none }).engine).getD emptyEngine

/-- Embedding of the detailed health-check button handler (lines
648-687): on a truthy top-level `success` it flattens the nested
payload into report lines; otherwise it emits exactly one error line
carrying the top-level error string. -/
def run_detailed_health_check (status : StatusPayload) : List Msg :=
  if status.success.getD false then
    [.success "✅ All systems operational!",
     .markdown "#### 📋 Detailed Status Report",
     .markdown "**🤖 Agents:**"]
    ++ (status.agents.getD []).map (fun p =>
        if p.2.healthy.getD false then
          .markdown ("- ✅ " ++ p.1 ++ ": " ++ p.2.model.getD "Unknown")
        else
          .markdown ("- ❌ " ++ p.1 ++ ": " ++ p.2.error.getD "Failed"))
    ++ [.markdown "**💾 Storage:**"]
    ++ (let storage_info := storageInfoOf status
        if storage_info.available.getD false then
          [.markdown ("- ✅ Google Sheets: " ++ storage_info.records_found.getD "Unknown"
            ++ " records")]
        else
          [.markdown ("- ❌ Google Sheets: " ++ storage_info.error.getD "Not available")])
    ++ [.markdown "**📊 Analytics:**"]
    ++ (let analytics_info := analyticsInfoOf status
        if analytics_info.available.getD false then
          [.markdown "- ✅ Analytics Engine: Ready"]
        else
          [.markdown ("- ❌ Analytics Engine: " ++ analytics_info.reason.getD "Not available")])
    ++ [.markdown "**🎯 Stage 2 Features:**"]
    ++ (status.stage2_features.getD []).map (fun p =>
        .markdown ("- " ++ (if p.2 then "✅" else "❌") ++ " " ++ p.1))
  else
    [.error ("❌ Health check failed: " ++ status.error.getD "Unknown error")]

/-- Embedding of the sidebar Test Connections handler (lines 475-505):
same top-level branching, coarser sub-reports. -/
def run_test_connections (status : StatusPayload) : List Msg :=
  if status.success.getD false then
    [.success "✅ All connections successful!",
     .markdown "### 🤖 Agent Status"]
    ++ (status.agents.getD []).map (fun p =>
        if p.2.healthy.getD false then
          .markdown ("<span class=\"agent-status agent-online\">✅ " ++ p.1 ++ "</span>")
        else
          .markdown ("<span class=\"agent-status agent-offline\">❌ " ++ p.1 ++ "</span>"))
    ++ [.markdown "### 💾 Storage Status"]
    ++ (if (storageInfoOf status).available.getD false then
          [.markdown "<span class=\"agent-status agent-online\">✅ Google Sheets</span>"]
        else
          [.markdown "<span class=\"agent-status agent-offline\">❌ Google Sheets</span>"])
    ++ [.markdown "### 📊 Analytics Status"]
    ++ (if (analyticsInfoOf status).available.getD false then
          [.markdown "<span class=\"agent-status agent-online\">✅ Analytics Engine</span>"]
        else
          [.markdown "<span class=\"agent-status agent-offline\">❌ Analytics Engine</span>"])
  else
    [.error ("❌ Connection test failed: " ++ status.error.getD "Unknown error")]

/-! Spec-side report shape for the success branch (following the words
of the claim: classify each agent solely by its healthy flag, read the
single storage and analytics availability flags, report each feature
flag verbatim, all in input order). -/

/-- One agent line: online with its model when healthy, offline with
its error otherwise. -/
def specAgentLine (name : String) (info : AgentInfo) : Msg :=
  if info.healthy.getD false then
    .markdown ("- ✅ " ++ name ++ ": " ++ info.model.getD "Unknown")
  else
    .markdown ("- ❌ " ++ name ++ ": " ++ info.error.getD "Failed")

/-- The storage sub-report, decided only by the nested
`storage.google_sheets.available` flag. -/
def specStorageLines (info : SheetsInfo) : List Msg :=
  if info.available.getD false then
    [.markdown ("- ✅ Google Sheets: " ++ info.records_found.getD "Unknown" ++ " records")]
  else
    [.markdown ("- ❌ Google Sheets: " ++ info.error.getD "Not available")]

/-- The analytics sub-report, decided only by the nested
`analytics.engine.available` flag. -/
def specAnalyticsLines (info : EngineInfo) : List Msg :=
  if info.available.getD false then
    [.markdown "- ✅ Analytics Engine: Ready"]
  else
    [.markdown ("- ❌ Analytics Engine: " ++ info.reason.getD "Not available")]

/-- One feature-flag line, the flag reported verbatim. -/
def specFeatureLine (name : String) (enabled : Bool) : Msg :=
  .markdown ("- " ++ (if enabled then "✅" else "❌") ++ " " ++ name)

/-! ## Transient-file lifecycle of create_api / initialize_api_async

File-system events of the post-gate flow, in program order.  The write
and removal events are read off `create_api` (lines 349-365) and
`initialize_api_async` (lines 376-392).  The read of the config file by
the external `EnhancedBrandMonitoringAPI(config_path)` constructor is
modelled from the spec (the constructor and `initialize` are not in the
shown source): the spec describes both transient files as read once by
the external constructor or initializer. -/

inductive FsEvent where
  | writeConfigFile
  | writeCredentialsFile
  | readConfigFile
  | removeConfigFile
  | removeCredentialsFile
deriving DecidableEq

/-- Outcome of the external `await api.initialize()` call. -/
inductive InitOutcome where
  | returnsTrue
  | returnsFalse
  | raises
deriving DecidableEq

/-- File events of `create_api` once the secrets gate has passed: the
temp config file is written (`delete=False`), then `credentials.json`
is written, then the external constructor runs (and reads the config);
if the constructor raises, `create_api` catches and returns `None`
without removing either file. -/
def create_api_file_events (constructRaises : Bool) : List FsEvent :=
  [.writeConfigFile, .writeCredentialsFile] ++
    (if constructRaises then [] else [.readConfigFile])

/-- File events of the whole initialization flow: `create_api` followed
(when it produced an API object) by `initialize_api_async`, which
unlinks the temp config file only after `await api.initialize()` has
returned; when `initialize` raises, the generic handler returns `False`
without reaching the unlink.  No path removes `credentials.json`. -/
def app_file_events (constructRaises : Bool) (outcome : InitOutcome) : List FsEvent :=
  create_api_file_events constructRaises ++
    (if constructRaises then []
     else
       match outcome with
       | .raises => []
       | _ => [.removeConfigFile])

/-! ## The monitoring button handler -/

/-- The invocation the UI passes to the external
`api.monitor_queries(...)`. -/
structure MonitorCall where
  queries : List String
  mode : String
  enable_ranking : Bool
  enable_analytics : Bool
deriving DecidableEq

/-- Embedding of the Start Brand Monitoring button handler (lines
536-547 and 606-607): with a truthy query it invokes `monitor_queries`
on the singleton query list in parallel mode with ranking and analytics
enabled; with a falsy (empty) query it only warns and performs no
invocation. -/
def start_monitoring_click (search_query : String) : Option MonitorCall × List Msg :=
  if pyTruthy search_query then
    (some { queries := [search_query], mode := "parallel",
            enable_ranking := true, enable_analytics := true }, [])
  else
    (none, [.warning "Please enter a search query."])

/-! ## The non-secret projection of a structured configuration -/

/-- Everything in a `RuntimeConfig` except the three API keys and the
spreadsheet id. -/
structure FixedConfigView where
  provider_fields : List (String × String × Nat × String × Nat)
  worksheet_name : String
  credentials_file : String
  auto_setup_headers : Bool
  batch_size : Nat
  enable_validation : Bool
  brand : BrandConfig
  workflow : WorkflowConfig
  stage2 : Stage2Config
  enhanced_brand : ContextAnalysisConfig
deriving DecidableEq

def nonSecretView (c : RuntimeConfig) : FixedConfigView where
  provider_fields :=
    c.llm_configs.map (fun l => (l.name, l.model, l.max_tokens, l.temperature, l.timeout))
  worksheet_name := c.google_sheets.worksheet_name
  credentials_file := c.google_sheets.credentials_file
  auto_setup_headers := c.google_sheets.auto_setup_headers
  batch_size := c.google_sheets.batch_size
  enable_validation := c.google_sheets.enable_validation
  brand := c.brand
  workflow := c.workflow
  stage2 := c.stage2
  enhanced_brand := c.enhanced_brand

/-! ## Concrete fixtures used by witnesses and counterexamples -/

/-- The service-account JSON text used by the well-formed fixtures. -/
def credsEmailText : String := "\x7b\"client_email\": \"x@y.com\"\x7d"

/-- Parse oracle agreeing with `json.loads` on the one input it is
applied to below: the text `5` parses as the JSON number 5. -/
def loadsNum : String → Option PyJson :=
  fun t => if t = "5" then some (.num 5) else none

/-- Parse oracle agreeing with `json.loads` on the one input it is
applied to below: the text `true` parses as the JSON boolean true. -/
def loadsBool : String → Option PyJson :=
  fun t => if t = "true" then some (.bool true) else none

/-- Parse oracle agreeing with `json.loads` on `credsEmailText`: a JSON
object with a client_email field. -/
def loadsEmailObj : String → Option PyJson :=
  fun t =>
    if t = credsEmailText then some (.obj [("client_email", .str "x@y.com")])
    else none

/-- Parse oracle for inputs that are not valid JSON. -/
def loadsNone : String → Option PyJson := fun _ => none

/-- Parse oracle agreeing with `json.loads` on the one input it is
applied to below: the text `[]` parses as the empty JSON array. -/
def loadsArr : String → Option PyJson :=
  fun t => if t = "[]" then some (.arr []) else none

/-- All five required keys configured; the credentials value is valid
JSON but a scalar. -/
def secretsScalarCreds : SecretSet :=
  [("OPENAI_API_KEY", "sk-test-openai-key"),
   ("PERPLEXITY_API_KEY", "pplx-test-key-123456"),
   ("GEMINI_API_KEY", "gemini-test-key"),
   ("GOOGLE_SHEETS_SPREADSHEET_ID", "sheet-id-1"),
   ("GOOGLE_SERVICE_ACCOUNT_CREDENTIALS", "5")]

/-- All five required keys configured; the credentials value is the
valid JSON scalar `true`. -/
def secretsBoolCreds : SecretSet :=
  [("OPENAI_API_KEY", "sk-test-openai-key"),
   ("PERPLEXITY_API_KEY", "pplx-test-key-123456"),
   ("GEMINI_API_KEY", "gemini-test-key"),
   ("GOOGLE_SHEETS_SPREADSHEET_ID", "sheet-id-1"),
   ("GOOGLE_SERVICE_ACCOUNT_CREDENTIALS", "true")]

/-- All five required keys configured with an object credentials value. -/
def secretsGoodCreds : SecretSet :=
  [("OPENAI_API_KEY", "sk-test-openai-key"),
   ("PERPLEXITY_API_KEY", "pplx-test-key-123456"),
   ("GEMINI_API_KEY", "gemini-test-key"),
   ("GOOGLE_SHEETS_SPREADSHEET_ID", "sheet-id-1"),
   ("GOOGLE_SERVICE_ACCOUNT_CREDENTIALS", credsEmailText)]

/-- Same four interpolated values as `secretsGoodCreds`, with a
credentials value that is not JSON. -/
def secretsBadJsonCreds : SecretSet :=
  [("OPENAI_API_KEY", "sk-test-openai-key"),
   ("PERPLEXITY_API_KEY", "pplx-test-key-123456"),
   ("GEMINI_API_KEY", "gemini-test-key"),
   ("GOOGLE_SHEETS_SPREADSHEET_ID", "sheet-id-1"),
   ("GOOGLE_SERVICE_ACCOUNT_CREDENTIALS", "this is not json")]

/-- All five required keys configured; the credentials value is the
valid JSON array `[]` (non-object JSON on which compilation still
succeeds, with a missing-client_email warning). -/
def secretsArrCreds : SecretSet :=
  [("OPENAI_API_KEY", "sk-test-openai-key"),
   ("PERPLEXITY_API_KEY", "pplx-test-key-123456"),
   ("GEMINI_API_KEY", "gemini-test-key"),
   ("GOOGLE_SHEETS_SPREADSHEET_ID", "sheet-id-1"),
   ("GOOGLE_SERVICE_ACCOUNT_CREDENTIALS", "[]")]

/-- A SecretSet with a short Perplexity key and no other keys. -/
def secretsShortKeys : SecretSet := [("PERPLEXITY_API_KEY", "pplx-1")]

/-- A failed connection test with a top-level error. -/
def failPayload : StatusPayload :=
  { success := some false, error := some "timeout", agents := none,
    storage := none, analytics := none, stage2_features := none }

/-- Storage sub-payload of the successful fixture. -/
def successStorage : StoragePart :=
  { google_sheets :=
      some { available := some true, records_found := some "12", error := none } }

/-- Analytics sub-payload of the successful fixture. -/
def successAnalytics : AnalyticsPart :=
  { engine := some { available := some true, reason := none } }

/-- A successful connection test with one healthy and one unhealthy
agent, storage and analytics available, and two feature flags. -/
def successPayload : StatusPayload :=
  { success := some true, error := none,
    agents := some
      [("a", { healthy := some true, model := some "gpt-3.5-turbo", error := none }),
       ("b", { healthy := some false, model := none, error := some "x" })],
    storage := some successStorage,
    analytics := some successAnalytics,
    stage2_features := some [("ranking_detection", true), ("advanced_analytics", false)] }

/-! ## Helper lemmas -/

/-- The two-list accumulation loop of `check_streamlit_secrets` is a
partition of the traversed list by the predicate. -/
theorem secrets_foldl_partition (p : String → Bool) (l : List String) :
    ∀ a b : List String,
      l.foldl
        (fun acc k => if p k then (acc.1 ++ [k], acc.2) else (acc.1, acc.2 ++ [k]))
        (a, b)
      = (a ++ l.filter p, b ++ l.filter (fun k => ! p k)) := by
  induction l with
  | nil => intro a b; simp
  | cons x xs ih =>
    intro a b
    by_cases h : p x = true
    · simp [h, ih, List.filter_cons]
    · simp at h
      simp [h, ih, List.filter_cons]

theorem check_streamlit_secrets_missing (s : SecretSet) :
    (check_streamlit_secrets s).missing_secrets
      = requiredSecrets.filter (fun k => ! secretConfigured s k) := by
  simp [check_streamlit_secrets, secrets_foldl_partition]

theorem check_streamlit_secrets_configured (s : SecretSet) :
    (check_streamlit_secrets s).configured_secrets
      = requiredSecrets.filter (fun k => secretConfigured s k) := by
  simp [check_streamlit_secrets, secrets_foldl_partition]

set_option maxHeartbeats 1000000 in
set_option maxRecDepth 10000 in
/-- The source template is exactly the rendering of the structured
configuration: the two definitions produce the same text for all four
secret values. -/
theorem config_content_eq_render (ok pk gk sid : String) :
    config_content ok pk gk sid = renderConfig (runtime_config_of ok pk gk sid) := by
  have h1000 : toString (1000 : Nat) = "1000" := rfl
  have h30 : toString (30 : Nat) = "30" := rfl
  have h100 : toString (100 : Nat) = "100" := rfl
  have h3 : toString (3 : Nat) = "3" := rfl
  have h60 : toString (60 : Nat) = "60" := rfl
  have h20 : toString (20 : Nat) = "20" := rfl
  have h200 : toString (200 : Nat) = "200" := rfl
  have htrue : renderBool true = "true" := rfl
  have hfalse : renderBool false = "false" := rfl
  simp only [config_content, configSeg0, configSeg1, configSeg2, configSeg3,
    configSeg4, renderConfig, runtime_config_of, renderProviders, renderProvider,
    renderQuotedItems, h1000, h30, h100, h3, h60, h20, h200, htrue, hfalse,
    String.append_assoc, String.append_empty]

/-- A successful association-list lookup means some entry carries the
key. -/
theorem any_key_of_lookup_some {entries : List (String × PyJson)} {k : String}
    {v : PyJson} (h : List.lookup k entries = some v) :
    entries.any (fun kv => kv.1 == k) = true := by
  induction entries with
  | nil => simp [List.lookup] at h
  | cons e es ih =>
    rw [List.lookup] at h
    by_cases hek : k = e.1
    · subst hek
      simp
    · have hb : (k == e.1) = false := by simp [hek]
      rw [hb] at h
      have h2 : List.lookup k es = some v := h
      simp [List.any_cons, ih h2]

/-- A failed association-list lookup means no entry carries the key. -/
theorem any_key_of_lookup_none {entries : List (String × PyJson)} {k : String}
    (h : List.lookup k entries = none) :
    entries.any (fun kv => kv.1 == k) = false := by
  induction entries with
  | nil => simp
  | cons e es ih =>
    rw [List.lookup] at h
    by_cases hek : k = e.1
    · subst hek
      simp at h
    · have hb : (k == e.1) = false := by simp [hek]
      rw [hb] at h
      have h2 : List.lookup k es = none := h
      have he : (e.1 == k) = false := by
        simp only [beq_eq_false_iff_ne]
        exact fun hcon => hek hcon.symm
      simp [List.any_cons, he, ih h2]

/-- Some entry carrying the key means the lookup succeeds. -/
theorem lookup_some_of_any {entries : List (String × PyJson)} {k : String}
    (h : entries.any (fun kv => kv.1 == k) = true) :
    ∃ v, List.lookup k entries = some v := by
  cases hl : List.lookup k entries with
  | some v => exact ⟨v, rfl⟩
  | none => rw [any_key_of_lookup_none hl] at h; exact absurd h (by simp)

/-- With object credentials (or unparseable credentials) the block never
raises. -/
theorem credentialsMsgs_no_raise (loads : String → Option PyJson) (c : String)
    (h : loads c = none ∨ ∃ entries, loads c = some (.obj entries)) :
    (credentialsMsgs loads c).2 = false := by
  unfold credentialsMsgs
  by_cases hc : c = ""
  · simp [hc, pyTruthy]
  · have ht : pyTruthy c = true := by simp [pyTruthy, hc]
    rcases h with h | ⟨entries, h⟩
    · simp [ht, h]
    · cases hany : entries.any (fun kv => kv.1 == "client_email") with
      | false => simp [ht, h, pyContainsStr, hany]
      | true =>
        obtain ⟨v, hv⟩ := lookup_some_of_any hany
        simp [ht, h, pyContainsStr, hany, pySubscriptStr, hv]

/-- When the gate reports all five keys configured, each required key
is configured. -/
theorem secretConfigured_of_all_configured {s : SecretSet}
    (h : (check_streamlit_secrets s).all_configured = true)
    {k : String} (hk : k ∈ requiredSecrets) :
    secretConfigured s k = true := by
  by_contra hn
  simp at hn
  have hmem : k ∈ (check_streamlit_secrets s).missing_secrets := by
    rw [check_streamlit_secrets_missing]
    simp [List.mem_filter, hk, hn]
  have hnil : (check_streamlit_secrets s).missing_secrets = [] := by
    simp [check_streamlit_secrets] at h ⊢
    rw [secrets_foldl_partition] at h ⊢
    simpa using h
  simp [hnil] at hmem

/-- A configured key has a truthy (non-empty) value. -/
theorem getSecret_truthy_of_configured {s : SecretSet} {k : String}
    (h : secretConfigured s k = true) :
    pyTruthy (getSecret s k) = true := by
  unfold secretConfigured at h
  unfold getSecret
  cases hl : List.lookup k s with
  | none => rw [hl] at h; exact absurd h (by simp)
  | some v => rw [hl] at h; exact h

/-- Exact characterization of when the credentials block raises: a
truthy credentials value whose parse result `credsRaise`s (null, bool
and number raise at the membership test; arrays and strings raise at
the subscript exactly when they contain "client_email"; objects and
unparseable input never raise). -/
theorem credentialsMsgs_raise_iff (loads : String → Option PyJson) (c : String) :
    (credentialsMsgs loads c).2 = (pyTruthy c && credsRaise (loads c)) := by
  unfold credentialsMsgs
  by_cases hc : c = ""
  · simp [hc, pyTruthy]
  · have ht : pyTruthy c = true := by simp [pyTruthy, hc]
    cases hl : loads c with
    | none => simp [ht, hl, credsRaise]
    | some j =>
      cases j with
      | null => simp [ht, hl, pyContainsStr, credsRaise]
      | bool b => simp [ht, hl, pyContainsStr, credsRaise]
      | num n => simp [ht, hl, pyContainsStr, credsRaise]
      | str t =>
        cases hin : charsInfixOf "client_email".data t.data with
        | false => simp [ht, hl, pyContainsStr, hin, credsRaise]
        | true => simp [ht, hl, pyContainsStr, hin, credsRaise, pySubscriptStr]
      | arr elems =>
        cases hany : elems.any (fun e =>
            match e with
            | .str u => u == "client_email"
            | _ => false) with
        | false => simp [ht, hl, pyContainsStr, hany, credsRaise]
        | true => simp [ht, hl, pyContainsStr, hany, credsRaise, pySubscriptStr]
      | obj entries =>
        cases hany : entries.any (fun kv => kv.1 == "client_email") with
        | false => simp [ht, hl, pyContainsStr, hany, credsRaise]
        | true =>
          obtain ⟨v, hv⟩ := lookup_some_of_any hany
          simp [ht, hl, pyContainsStr, hany, credsRaise, pySubscriptStr, hv]

/-- The compiler returns `none` exactly when the credentials block
raises. -/
theorem create_config_snd (loads : String → Option PyJson) (s : SecretSet) :
    (create_config_from_secrets loads s).2
      = (if (credentialsMsgs loads (getSecret s "GOOGLE_SERVICE_ACCOUNT_CREDENTIALS")).2
         then none
         else some (config_content (getSecret s "OPENAI_API_KEY")
            (getSecret s "PERPLEXITY_API_KEY") (getSecret s "GEMINI_API_KEY")
            (getSecret s "GOOGLE_SHEETS_SPREADSHEET_ID"))) := rfl

theorem length_warning_not_mem_openaiKeyMsgs (k : String) :
    Msg.warning perplexityLengthWarning ∉ openaiKeyMsgs k := by
  unfold openaiKeyMsgs
  split <;> decide

theorem length_warning_not_mem_prefixMsgs (k : String) :
    Msg.warning perplexityLengthWarning ∉ perplexityPrefixMsgs k := by
  unfold perplexityPrefixMsgs
  split <;> decide

theorem length_warning_not_mem_spreadsheetMsgs (d : String) :
    Msg.warning perplexityLengthWarning ∉ spreadsheetMsgs d := by
  unfold spreadsheetMsgs
  split
  · decide
  · simp

theorem length_warning_not_mem_credentialsMsgs (loads : String → Option PyJson)
    (c : String) :
    Msg.warning perplexityLengthWarning ∉ (credentialsMsgs loads c).1 := by
  unfold credentialsMsgs
  split
  · decide
  · split
    · decide
    · split
      · decide
      · decide
      · split
        · decide
        · simp

/-! ## Claim C1 -/

/-- C1: for every SecretSet, `all_configured` holds iff every one of the
five required keys is present with a non-empty value; the missing list
is exactly the required keys that are absent or empty and the configured
list exactly the others; the two lists are disjoint and together cover
exactly the five required keys. -/
theorem check_secrets_partition (s : SecretSet) :
    ((check_streamlit_secrets s).all_configured = true ↔
        ∀ k ∈ requiredSecrets, secretConfigured s k = true) ∧
    (check_streamlit_secrets s).missing_secrets
      = requiredSecrets.filter (fun k => ! secretConfigured s k) ∧
    (check_streamlit_secrets s).configured_secrets
      = requiredSecrets.filter (fun k => secretConfigured s k) ∧
    (∀ k, ¬ (k ∈ (check_streamlit_secrets s).missing_secrets ∧
             k ∈ (check_streamlit_secrets s).configured_secrets)) ∧
    (∀ k, (k ∈ (check_streamlit_secrets s).missing_secrets ∨
           k ∈ (check_streamlit_secrets s).configured_secrets) ↔
          k ∈ requiredSecrets) := by
  refine ⟨?_, check_streamlit_secrets_missing s, check_streamlit_secrets_configured s, ?_, ?_⟩
  · constructor
    · intro h k hk
      by_contra hki
      simp at hki
      have hmem : k ∈ (check_streamlit_secrets s).missing_secrets := by
        rw [check_streamlit_secrets_missing]
        simp [List.mem_filter, hk, hki]
      have : (check_streamlit_secrets s).missing_secrets = [] := by
        simp [check_streamlit_secrets] at h ⊢
        rw [secrets_foldl_partition] at h ⊢
        simpa using h
      simp [this] at hmem
    · intro h
      have : (check_streamlit_secrets s).missing_secrets = [] := by
        rw [check_streamlit_secrets_missing]
        simp only [List.filter_eq_nil_iff]
        intro k hk
        simp [h k hk]
      simp [check_streamlit_secrets] at this ⊢
      rw [secrets_foldl_partition] at this ⊢
      simpa using this
  · intro k ⟨hm, hc⟩
    rw [check_streamlit_secrets_missing] at hm
    rw [check_streamlit_secrets_configured] at hc
    simp [List.mem_filter] at hm hc
    exact absurd hc.2 (by simp [hm.2])
  · intro k
    rw [check_streamlit_secrets_missing, check_streamlit_secrets_configured]
    constructor
    · rintro (h | h) <;> exact (List.mem_filter.mp h).1
    · intro hk
      by_cases hc : secretConfigured s k = true
      · exact Or.inr (List.mem_filter.mpr ⟨hk, by simp [hc]⟩)
      · exact Or.inl (List.mem_filter.mpr ⟨hk, by simp at hc; simp [hc]⟩)

/-! ## Claim C2 -/

/-- C2 counterexample: a SecretSet with all five required keys
configured whose credentials value is the valid JSON scalar `5`.
`json.loads` returns the number 5 and the membership test
`in` on an int raises an uncaught TypeError, so compilation fails
even though every key is present and non-empty. -/
theorem compile_fails_on_scalar_json_credentials :
    (check_streamlit_secrets secretsScalarCreds).all_configured = true ∧
    (create_config_from_secrets loadsNum secretsScalarCreds).2 = none :=
  ⟨rfl, rfl⟩

/-- C2 (amended): for every SecretSet with all five required keys
present and non-empty, compilation succeeds and returns the rendered
configuration regardless of the format of the key values — in
particular an OpenAI key without the sk- prefix only adds a warning —
if and only if the credentials value does not make the credentials
block raise; it raises exactly when the value parses as JSON null, a
boolean or a number, or as a JSON array or string containing
client_email (`credsRaise`); unparseable text, objects, and arrays or
strings without client_email all compile. -/
theorem compile_succeeds_unless_credentials_raise
    (loads : String → Option PyJson) (s : SecretSet)
    (hall : (check_streamlit_secrets s).all_configured = true) :
    ((create_config_from_secrets loads s).2
        = some (config_content (getSecret s "OPENAI_API_KEY")
            (getSecret s "PERPLEXITY_API_KEY") (getSecret s "GEMINI_API_KEY")
            (getSecret s "GOOGLE_SHEETS_SPREADSHEET_ID")) ↔
      credsRaise (loads (getSecret s "GOOGLE_SERVICE_ACCOUNT_CREDENTIALS"))
        = false) ∧
    (¬ pyStartswith (getSecret s "OPENAI_API_KEY") "sk-" →
      Msg.warning openaiFormatWarning ∈ (create_config_from_secrets loads s).1) := by
  have ht : pyTruthy (getSecret s "GOOGLE_SERVICE_ACCOUNT_CREDENTIALS") = true :=
    getSecret_truthy_of_configured
      (secretConfigured_of_all_configured hall (by decide))
  constructor
  · rw [create_config_snd, credentialsMsgs_raise_iff, ht]
    cases hcr : credsRaise (loads (getSecret s "GOOGLE_SERVICE_ACCOUNT_CREDENTIALS")) <;>
      simp
  · intro hsk
    simp only [Bool.not_eq_true] at hsk
    have hw : openaiKeyMsgs (getSecret s "OPENAI_API_KEY")
        = [.warning openaiFormatWarning] := by
      unfold openaiKeyMsgs
      simp [hsk]
    unfold create_config_from_secrets
    simp [hw]

/-- C2 witness: the amended theorem applied to two concrete fully
configured SecretSets — one with object credentials, one with the
non-object JSON array credentials `[]`, which also compiles. -/
theorem compile_succeeds_witness :
    (create_config_from_secrets loadsEmailObj secretsGoodCreds).2
      = some (config_content (getSecret secretsGoodCreds "OPENAI_API_KEY")
          (getSecret secretsGoodCreds "PERPLEXITY_API_KEY")
          (getSecret secretsGoodCreds "GEMINI_API_KEY")
          (getSecret secretsGoodCreds "GOOGLE_SHEETS_SPREADSHEET_ID")) ∧
    (create_config_from_secrets loadsArr secretsArrCreds).2
      = some (config_content (getSecret secretsArrCreds "OPENAI_API_KEY")
          (getSecret secretsArrCreds "PERPLEXITY_API_KEY")
          (getSecret secretsArrCreds "GEMINI_API_KEY")
          (getSecret secretsArrCreds "GOOGLE_SHEETS_SPREADSHEET_ID")) :=
  ⟨(compile_succeeds_unless_credentials_raise loadsEmailObj secretsGoodCreds
      rfl).1.mpr rfl,
   (compile_succeeds_unless_credentials_raise loadsArr secretsArrCreds
      rfl).1.mpr rfl⟩

/-! ## Claim C3 -/

/-- C3: when the top-level success flag is false or absent, both
health-check handlers emit exactly one error line carrying exactly the
top-level error string (default Unknown error) and no agent, storage or
analytics sub-reports. -/
theorem health_failure_reports_only_error (status : StatusPayload)
    (h : status.success.getD false = false) :
    run_detailed_health_check status
      = [.error ("❌ Health check failed: " ++ status.error.getD "Unknown error")] ∧
    run_test_connections status
      = [.error ("❌ Connection test failed: " ++ status.error.getD "Unknown error")] := by
  unfold run_detailed_health_check run_test_connections
  simp [h]

/-- C3 witness: the failure payload with error timeout yields exactly
the one error line in each handler. -/
theorem health_failure_witness :
    run_detailed_health_check failPayload
      = [.error ("❌ Health check failed: " ++ "timeout")] ∧
    run_test_connections failPayload
      = [.error ("❌ Connection test failed: " ++ "timeout")] :=
  health_failure_reports_only_error failPayload rfl

/-! ## Claim C4 -/

/-- C4: on a payload with success true the detailed health check is the
pure flattening: fixed headers, one line per agent in input order
classified solely by its healthy flag (model when healthy, error
otherwise), the single storage availability flag under
storage.google_sheets, the single analytics availability flag under
analytics.engine, and one verbatim line per stage2 feature flag. -/
theorem health_success_flattening (status : StatusPayload)
    (h : status.success = some true) :
    run_detailed_health_check status
      = [.success "✅ All systems operational!",
         .markdown "#### 📋 Detailed Status Report",
         .markdown "**🤖 Agents:**"]
        ++ (status.agents.getD []).map (fun p => specAgentLine p.1 p.2)
        ++ [.markdown "**💾 Storage:**"]
        ++ specStorageLines (storageInfoOf status)
        ++ [.markdown "**📊 Analytics:**"]
        ++ specAnalyticsLines (analyticsInfoOf status)
        ++ [.markdown "**🎯 Stage 2 Features:**"]
        ++ (status.stage2_features.getD []).map (fun p => specFeatureLine p.1 p.2) := by
  unfold run_detailed_health_check specAgentLine specStorageLines
    specAnalyticsLines specFeatureLine
  simp [h]

/-- C4 witness: the success payload with agents a (healthy) and b
(unhealthy, error x) flattens to the spec shape in input order. -/
theorem health_success_witness :
    run_detailed_health_check successPayload
      = [.success "✅ All systems operational!",
         .markdown "#### 📋 Detailed Status Report",
         .markdown "**🤖 Agents:**"]
        ++ (successPayload.agents.getD []).map (fun p => specAgentLine p.1 p.2)
        ++ [.markdown "**💾 Storage:**"]
        ++ specStorageLines (storageInfoOf successPayload)
        ++ [.markdown "**📊 Analytics:**"]
        ++ specAnalyticsLines (analyticsInfoOf successPayload)
        ++ [.markdown "**🎯 Stage 2 Features:**"]
        ++ (successPayload.stage2_features.getD []).map (fun p => specFeatureLine p.1 p.2) :=
  health_success_flattening successPayload rfl

/-! ## Claim C5 -/

/-- C5 counterexample: even on the fully successful path the
credentials file is never removed, and when initialize raises the
config file is not removed either. -/
theorem transient_files_not_always_removed :
    FsEvent.removeCredentialsFile ∉ app_file_events false .returnsTrue ∧
    FsEvent.removeConfigFile ∉ app_file_events false .raises := by
  decide

/-- C5 (amended): each transient file is written exactly once and the
config file is read at most once; the config file is removed exactly
when the external constructor does not raise and initialize returns
(whether true or false) — not when initialize raises — and the
credentials file is never removed by this layer. -/
theorem transient_file_lifecycle (constructRaises : Bool) (outcome : InitOutcome) :
    (app_file_events constructRaises outcome).count .writeConfigFile = 1 ∧
    (app_file_events constructRaises outcome).count .writeCredentialsFile = 1 ∧
    (app_file_events constructRaises outcome).count .readConfigFile ≤ 1 ∧
    (app_file_events constructRaises outcome).count .removeConfigFile ≤ 1 ∧
    FsEvent.removeCredentialsFile ∉ app_file_events constructRaises outcome ∧
    (FsEvent.removeConfigFile ∈ app_file_events constructRaises outcome ↔
      (constructRaises = false ∧ outcome ≠ .raises)) := by
  cases constructRaises <;> cases outcome <;> decide

/-! ## Claim C6 -/

/-- C6: the rendered configuration text is a deterministic function of
the SecretSet — compilations seeing the same four interpolated secret
values produce byte-identical text, independently of the parse oracle —
and the non-secret fixed fields are identical across compilations of
any two SecretSets. -/
theorem compile_rendering_deterministic :
    (∀ (loads loads2 : String → Option PyJson) (s s2 : SecretSet),
      getSecret s "OPENAI_API_KEY" = getSecret s2 "OPENAI_API_KEY" →
      getSecret s "PERPLEXITY_API_KEY" = getSecret s2 "PERPLEXITY_API_KEY" →
      getSecret s "GEMINI_API_KEY" = getSecret s2 "GEMINI_API_KEY" →
      getSecret s "GOOGLE_SHEETS_SPREADSHEET_ID"
        = getSecret s2 "GOOGLE_SHEETS_SPREADSHEET_ID" →
      ∀ cfg cfg2, (create_config_from_secrets loads s).2 = some cfg →
        (create_config_from_secrets loads2 s2).2 = some cfg2 → cfg = cfg2) ∧
    (∀ ok pk gk sid ok2 pk2 gk2 sid2 : String,
      nonSecretView (runtime_config_of ok pk gk sid)
        = nonSecretView (runtime_config_of ok2 pk2 gk2 sid2)) := by
  constructor
  · intro loads loads2 s s2 h1 h2 h3 h4 cfg cfg2 hc hc2
    rw [create_config_snd] at hc hc2
    cases hb : (credentialsMsgs loads (getSecret s "GOOGLE_SERVICE_ACCOUNT_CREDENTIALS")).2 with
    | true => rw [hb] at hc; simp at hc
    | false =>
      rw [hb] at hc
      cases hb2 : (credentialsMsgs loads2 (getSecret s2 "GOOGLE_SERVICE_ACCOUNT_CREDENTIALS")).2 with
      | true => rw [hb2] at hc2; simp at hc2
      | false =>
        rw [hb2] at hc2
        simp at hc hc2
        rw [← hc, ← hc2, h1, h2, h3, h4]
  · intro ok pk gk sid ok2 pk2 gk2 sid2
    rfl

/-- C6 witness: two compilations with the same four interpolated values
but different credentials and different parse oracles yield the same
text. -/
theorem compile_deterministic_witness :
    config_content "sk-test-openai-key" "pplx-test-key-123456" "gemini-test-key"
        "sheet-id-1"
      = config_content "sk-test-openai-key" "pplx-test-key-123456" "gemini-test-key"
        "sheet-id-1" :=
  compile_rendering_deterministic.1 loadsEmailObj loadsNone secretsGoodCreds
    secretsBadJsonCreds rfl rfl rfl rfl _ _ rfl rfl

/-! ## Claim C7 -/

/-- C7: every successfully compiled configuration is the rendering of
the structured RuntimeConfig carrying exactly three providers
(openai with gpt-3.5-turbo, perplexity with sonar, gemini with
gemini-pro, each max_tokens 1000, temperature 0.1, timeout 30), the
Brand_Monitoring_New storage target with batch_size 100 and
auto_setup_headers, the DataTobiz brand with its 7 fixed variations
(case-insensitive, partial match), workflow tuning 3 retries, delay
1.0, parallel, 60s per agent, ranking tuning max_position 20 and
min_confidence 0.6, and sentiment context window 200 with sentiment
analysis disabled. -/
theorem compiled_runtime_config_shape (loads : String → Option PyJson)
    (s : SecretSet) (cfg : String)
    (h : (create_config_from_secrets loads s).2 = some cfg) :
    cfg = renderConfig (runtime_config_of (getSecret s "OPENAI_API_KEY")
        (getSecret s "PERPLEXITY_API_KEY") (getSecret s "GEMINI_API_KEY")
        (getSecret s "GOOGLE_SHEETS_SPREADSHEET_ID")) ∧
    ∀ ok pk gk sid : String,
      (runtime_config_of ok pk gk sid).llm_configs.map (fun l => (l.name, l.model))
        = [("openai", "gpt-3.5-turbo"), ("perplexity", "sonar"),
           ("gemini", "gemini-pro")] ∧
      (runtime_config_of ok pk gk sid).llm_configs.map (fun l => l.api_key)
        = [ok, pk, gk] ∧
      (∀ l ∈ (runtime_config_of ok pk gk sid).llm_configs,
        l.max_tokens = 1000 ∧ l.temperature = "0.1" ∧ l.timeout = 30) ∧
      (runtime_config_of ok pk gk sid).google_sheets
        = { spreadsheet_id := sid, worksheet_name := "Brand_Monitoring_New",
            credentials_file := "credentials.json", auto_setup_headers := true,
            batch_size := 100, enable_validation := true } ∧
      (runtime_config_of ok pk gk sid).brand
        = { target_brand := "DataTobiz",
            brand_variations := ["DataTobiz", "Data Tobiz", "data tobiz",
              "DATATOBIZ", "DataToBiz", "Data-Tobiz", "datatobiz.com"],
            case_sensitive := false, partial_match := true } ∧
      (runtime_config_of ok pk gk sid).brand.brand_variations.length = 7 ∧
      (runtime_config_of ok pk gk sid).workflow
        = { max_retries := 3, retry_delay := "1.0", parallel_execution := true,
            timeout_per_agent := 60, log_level := "INFO" } ∧
      (runtime_config_of ok pk gk sid).stage2.ranking_detection.max_position = 20 ∧
      (runtime_config_of ok pk gk sid).stage2.ranking_detection.min_confidence
        = "0.6" ∧
      (runtime_config_of ok pk gk sid).enhanced_brand.context_window = 200 ∧
      (runtime_config_of ok pk gk sid).enhanced_brand.enable_sentiment_analysis
        = false := by
  constructor
  · rw [create_config_snd] at h
    cases hb : (credentialsMsgs loads (getSecret s "GOOGLE_SERVICE_ACCOUNT_CREDENTIALS")).2 with
    | true => rw [hb] at h; simp at h
    | false =>
      rw [hb] at h
      simp at h
      rw [← h, config_content_eq_render]
  · intro ok pk gk sid
    refine ⟨rfl, rfl, ?_, rfl, rfl, rfl, rfl, rfl, rfl, rfl, rfl⟩
    intro l hl
    simp [runtime_config_of] at hl
    rcases hl with h | h | h <;> subst h <;> exact ⟨rfl, rfl, rfl⟩

/-- C7 witness: the shape theorem applied to a concrete compilation. -/
theorem compiled_runtime_config_witness :
    config_content "sk-test-openai-key" "pplx-test-key-123456" "gemini-test-key"
        "sheet-id-1"
      = renderConfig (runtime_config_of "sk-test-openai-key" "pplx-test-key-123456"
          "gemini-test-key" "sheet-id-1") :=
  (compiled_runtime_config_shape loadsEmailObj secretsGoodCreds _ rfl).1

/-! ## Claim C8 -/

/-- C8 counterexample: the credentials text true is valid JSON without
a client_email field; instead of the missing-client_email warning the
compiler raises (membership test on a boolean) and compilation stops. -/
theorem credentials_scalar_json_raises :
    loadsBool (getSecret secretsBoolCreds "GOOGLE_SERVICE_ACCOUNT_CREDENTIALS")
      = some (.bool true) ∧
    Msg.warning credentialsInvalidWarning
      ∉ (create_config_from_secrets loadsBool secretsBoolCreds).1 ∧
    (create_config_from_secrets loadsBool secretsBoolCreds).2 = none := by
  refine ⟨rfl, ?_, rfl⟩
  have hmsgs : (create_config_from_secrets loadsBool secretsBoolCreds).1
      = [.success ("✅ Google Sheets Spreadsheet ID: " ++ "sheet-id-1")] := rfl
  rw [hmsgs]
  simp

/-- C8 (amended): a credentials value parsing to a JSON object with a
client_email field yields the positive confirmation carrying that
email; a non-empty value that does not parse yields the not-valid-JSON
warning without raising; a value on which the membership test succeeds
and finds no client_email — a JSON object without the key, an array
without that element, a string without that substring — yields the
missing-client_email warning; in all these cases compilation
continues.  The compiler aborts exactly when the block raises
(`credsRaise`): on JSON null, booleans and numbers at the membership
test, and on arrays or strings containing client_email at the
subscript. -/
theorem credentials_validation_cases (loads : String → Option PyJson) (c : String) :
    (∀ entries email, loads c = some (.obj entries) →
      List.lookup "client_email" entries = some (.str email) → pyTruthy c = true →
      credentialsMsgs loads c
        = ([.success ("✅ Google Service Account configured for: " ++ email)],
           false)) ∧
    (pyTruthy c = true → loads c = none →
      credentialsMsgs loads c = ([.warning credentialsNotJsonWarning], false)) ∧
    (∀ entries, loads c = some (.obj entries) →
      List.lookup "client_email" entries = none → pyTruthy c = true →
      credentialsMsgs loads c = ([.warning credentialsInvalidWarning], false)) ∧
    (∀ elems, loads c = some (.arr elems) →
      elems.any (fun e =>
        match e with
        | .str t => t == "client_email"
        | _ => false) = false → pyTruthy c = true →
      credentialsMsgs loads c = ([.warning credentialsInvalidWarning], false)) ∧
    (∀ t, loads c = some (.str t) →
      charsInfixOf "client_email".data t.data = false → pyTruthy c = true →
      credentialsMsgs loads c = ([.warning credentialsInvalidWarning], false)) ∧
    (credentialsMsgs loads c).2 = (pyTruthy c && credsRaise (loads c)) ∧
    (∀ s : SecretSet,
      (create_config_from_secrets loads s).2 = none ↔
        (credentialsMsgs loads (getSecret s "GOOGLE_SERVICE_ACCOUNT_CREDENTIALS")).2
          = true) := by
  refine ⟨?_, ?_, ?_, ?_, ?_, credentialsMsgs_raise_iff loads c, ?_⟩
  · intro entries email hl hk ht
    unfold credentialsMsgs
    simp [ht, hl, pyContainsStr, any_key_of_lookup_some hk, pySubscriptStr, hk,
      pyToStr]
  · intro ht hn
    unfold credentialsMsgs
    simp [ht, hn]
  · intro entries hl hn ht
    unfold credentialsMsgs
    simp [ht, hl, pyContainsStr, any_key_of_lookup_none hn]
  · intro elems hl hany ht
    unfold credentialsMsgs
    simp [ht, hl, pyContainsStr, hany]
  · intro t hl hin ht
    unfold credentialsMsgs
    simp [ht, hl, pyContainsStr, hin]
  · intro s
    rw [create_config_snd]
    cases hb : (credentialsMsgs loads (getSecret s "GOOGLE_SERVICE_ACCOUNT_CREDENTIALS")).2 <;>
      simp [hb]

/-- C8 witness: the object credentials with client_email x@y.com yield
the positive confirmation, and the array credentials `[]` yield the
missing-client_email warning without raising. -/
theorem credentials_validation_witness :
    (credentialsMsgs loadsEmailObj credsEmailText
      = ([.success ("✅ Google Service Account configured for: " ++ "x@y.com")],
         false)) ∧
    credentialsMsgs loadsArr "[]"
      = ([.warning credentialsInvalidWarning], false) :=
  ⟨(credentials_validation_cases loadsEmailObj credsEmailText).1
      [("client_email", PyJson.str "x@y.com")] "x@y.com" rfl rfl rfl,
   (credentials_validation_cases loadsArr "[]").2.2.2.1 [] rfl rfl rfl⟩

/-! ## Claim C9 -/

/-- C9: the Perplexity length warning is emitted iff the Perplexity key
is non-empty and shorter than 20 characters; an empty Perplexity key
still triggers the pplx- prefix warning but never the length warning;
an empty OpenAI key triggers the sk- prefix warning. -/
theorem perplexity_length_warning_scope (loads : String → Option PyJson)
    (s : SecretSet) :
    (Msg.warning perplexityLengthWarning ∈ (create_config_from_secrets loads s).1 ↔
      getSecret s "PERPLEXITY_API_KEY" ≠ "" ∧
        (getSecret s "PERPLEXITY_API_KEY").length < 20) ∧
    (getSecret s "PERPLEXITY_API_KEY" = "" →
      Msg.warning perplexityFormatWarning ∈ (create_config_from_secrets loads s).1 ∧
      Msg.warning perplexityLengthWarning ∉ (create_config_from_secrets loads s).1) ∧
    (getSecret s "OPENAI_API_KEY" = "" →
      Msg.warning openaiFormatWarning ∈ (create_config_from_secrets loads s).1) := by
  have hmem : Msg.warning perplexityLengthWarning
        ∈ (create_config_from_secrets loads s).1 ↔
      Msg.warning perplexityLengthWarning
        ∈ perplexityLengthMsgs (getSecret s "PERPLEXITY_API_KEY") := by
    unfold create_config_from_secrets
    simp [List.mem_append, length_warning_not_mem_openaiKeyMsgs,
      length_warning_not_mem_prefixMsgs, length_warning_not_mem_spreadsheetMsgs,
      length_warning_not_mem_credentialsMsgs]
  refine ⟨?_, ?_, ?_⟩
  · rw [hmem]
    cases hp : (pyTruthy (getSecret s "PERPLEXITY_API_KEY")
        && decide ((getSecret s "PERPLEXITY_API_KEY").length < 20)) with
    | true =>
      simp [pyTruthy] at hp
      simp [perplexityLengthMsgs, pyTruthy, hp]
    | false =>
      simp [pyTruthy] at hp
      simp [perplexityLengthMsgs, pyTruthy, hp]
  · intro h0
    constructor
    · have hw : perplexityPrefixMsgs (getSecret s "PERPLEXITY_API_KEY")
          = [.warning perplexityFormatWarning] := by
        rw [h0]
        rfl
      unfold create_config_from_secrets
      simp [hw]
    · rw [hmem, h0]
      decide
  · intro h0
    have hw : openaiKeyMsgs (getSecret s "OPENAI_API_KEY")
        = [.warning openaiFormatWarning] := by
      rw [h0]
      rfl
    unfold create_config_from_secrets
    simp [hw]

/-- C9 witness: a short non-empty Perplexity key gets the length
warning, and the absent OpenAI key still gets the sk- prefix warning. -/
theorem perplexity_length_warning_witness :
    Msg.warning perplexityLengthWarning
      ∈ (create_config_from_secrets loadsNone secretsShortKeys).1 ∧
    Msg.warning openaiFormatWarning
      ∈ (create_config_from_secrets loadsNone secretsShortKeys).1 :=
  ⟨(perplexity_length_warning_scope loadsNone secretsShortKeys).1.mpr
      ⟨by decide, by decide⟩,
   (perplexity_length_warning_scope loadsNone secretsShortKeys).2.2 rfl⟩

/-! ## Claim C10 -/

/-- C10: the monitoring button invokes monitor_queries exactly on the
singleton list of the entered query, in parallel mode with ranking and
analytics enabled, and performs no invocation when the entered query is
empty. -/
theorem monitoring_invocation (q : String) :
    (q ≠ "" →
      (start_monitoring_click q).1
        = some { queries := [q], mode := "parallel",
                 enable_ranking := true, enable_analytics := true }) ∧
    (q = "" → (start_monitoring_click q).1 = none) := by
  constructor <;> intro h <;> simp [start_monitoring_click, pyTruthy, h]

/-- C10 witness: a concrete query produces the singleton parallel
invocation. -/
theorem monitoring_invocation_witness :
    (start_monitoring_click "DataTobiz services").1
      = some { queries := ["DataTobiz services"], mode := "parallel",
               enable_ranking := true, enable_analytics := true } :=
  (monitoring_invocation "DataTobiz services").1 (by decide)
